import Mathlib

namespace Intern

/-! Shallow embedding of the `Runner` console reporter of the intern
    test framework (Intern 4 `Runner.ts`): the per-session state kept by the
    reporter, its event handlers, and the terminal output they produce.
    Terminal rendering (`charm`) is modelled as a list of abstract output
    events; the istanbul coverage map is modelled by the file set the
    reporter inspects (`files()` / `merge`). -/

/-- JS `x || ''` on an optional string (`undefined` and `""` both give `""`). -/
def jsOrEmpty : Option String → String
  | some s => s
  | none => ""

/-- JS truthiness of an optional string: `undefined` and `""` are falsy. -/
def jsTruthy : Option String → Bool
  | some s => !s.isEmpty
  | none => false

/-- JS `x || d` on an optional string (`undefined` and `""` fall back to `d`). -/
def jsOr : Option String → String → String
  | some s, d => if s.isEmpty then d else s
  | none, d => d

/-- JS string coercion used by template literals and `+` on strings:
    `undefined` renders as the text "undefined". -/
def jsStr : Option String → String
  | some s => s
  | none => "undefined"

/-- An argument to Node's `util.format`. -/
inductive FmtArg where
  | num (v : Nat)
  | str (v : String)
deriving DecidableEq

/-- Model of Node's `util.format`, restricted to the `%s` and `%d`
    placeholders the reporter uses: once the arguments are exhausted the rest
    of the format string is emitted verbatim, and other characters pass
    through unchanged. -/
def substFmt : List Char → List FmtArg → List Char
  | [], _ => []
  | fmt, [] => fmt
  | c :: rest, a :: as =>
    if c = '%' then
      match rest, a, as with
      | 'd' :: r2, FmtArg.num v, as2 => (toString v).data ++ substFmt r2 as2
      | 's' :: r2, FmtArg.str v, as2 => v.data ++ substFmt r2 as2
      | r2, a2, as2 => c :: substFmt r2 (a2 :: as2)
    else
      c :: substFmt rest (a :: as)

/-- `nodeUtil.format(fmt, ...args)`. -/
def nodeFormat (fmt : String) (args : List FmtArg) : String :=
  String.mk (substFmt fmt.data args)

/-- The per-suite fields of an intern `Suite` that the reporter reads.
    An error object is represented by its message. -/
structure SuiteInfo where
  name : String
  id : String
  sessionId : Option String
  hasParent : Bool
  error : Option String
  numTests : Nat
  numFailedTests : Nat
  numSkippedTests : Nat
deriving DecidableEq

/-- A node of the suite/test result tree: intern `Test` leaves carry an
    optional error and skip reason and have no `tests` array; `Suite` nodes
    carry their summary fields and a `tests` array of children. -/
inductive TNode where
  | test (id : String) (error : Option String) (skipped : Option String) (timeElapsed : Nat)
  | suite (info : SuiteInfo) (tests : List TNode)

/-- An intern `Suite` object as the reporter receives it. -/
structure Suite where
  info : SuiteInfo
  tests : List TNode

mutual
/-- The recursive `hasError` closure inside `Runner.suiteEnd`:
    `suite.tests ? (suite.error || suite.tests.some(hasError)) : false`.
    A node without a `tests` array (a test leaf) yields `false`. -/
def hasErrorWalk : TNode → Bool
  | TNode.test _ _ _ _ => false
  | TNode.suite info tests => info.error.isSome || hasErrorWalkList tests

/-- `tests.some(hasError)` over the children list. -/
def hasErrorWalkList : List TNode → Bool
  | [] => false
  | t :: ts => hasErrorWalk t || hasErrorWalkList ts
end

mutual
/-- Whether some test leaf of the tree carries an error object. -/
def descTestError : TNode → Bool
  | TNode.test _ e _ _ => e.isSome
  | TNode.suite _ tests => descTestErrorList tests

def descTestErrorList : List TNode → Bool
  | [] => false
  | t :: ts => descTestError t || descTestErrorList ts
end

/-- Model of an istanbul coverage map: the reporter only inspects the set of
    covered file paths (`files()`) and merges maps (`merge`). -/
structure CovMap where
  files : List String
deriving DecidableEq

def createCoverageMap : CovMap := { files := [] }

/-- `map.merge(other)`: the files of `other` are added to those of `map`
    (per-file counters are outside the model). -/
def covMerge (m other : CovMap) : CovMap :=
  { files := other.files.foldl (fun acc f => if acc.contains f then acc else acc ++ [f]) m.files }

structure CoverageMessage where
  sessionId : Option String
  coverage : CovMap
deriving DecidableEq

structure DeprecationMessage where
  original : String
  replacement : Option String
  message : Option String
deriving DecidableEq

structure TunnelProgress where
  received : Nat
  total : Nat
deriving DecidableEq

structure TunnelMessage where
  status : Option String
  progress : Option TunnelProgress
deriving DecidableEq

/-- An intern `Test` object as `testEnd` receives it. -/
structure TestR where
  id : String
  error : Option String
  skipped : Option String
  timeElapsed : Nat
deriving DecidableEq

/-- One entry of the `sessions` map. -/
structure Session where
  suite : Suite
  coverage : Option CovMap

/-- One `charm`/console call made by the reporter. `coverageReport` stands
    for `createCoverageReport` handing the given map to the coverage
    reporting collaborator. -/
inductive Out where
  | write (s : String)
  | display (mode : String)
  | foreground (color : String)
  | coverageReport (map : CovMap)
  | consoleLog (s : String)
deriving DecidableEq

/-- The mutable fields of the `Runner` reporter. -/
structure RunnerState where
  sessions : List (String × Session)
  hasErrors : Bool
  hidePassed : Bool
  hideSkipped : Bool
  serveOnly : Bool
  deprecationMessages : List String

/-- The constructor: empty session map, `hasErrors = false`, no deprecation
    messages seen. `hidePassed`, `hideSkipped` and `serveOnly` come from the
    executor configuration. -/
def initRunner (serveOnly hidePassed hideSkipped : Bool) : RunnerState :=
  { sessions := [], hasErrors := false, hidePassed := hidePassed,
    hideSkipped := hideSkipped, serveOnly := serveOnly, deprecationMessages := [] }

/-- JS property read `sessions[k]` on the string-keyed object. -/
def lookupSession : List (String × Session) → String → Option Session
  | [], _ => none
  | (k2, v) :: rest, k => if k2 = k then some v else lookupSession rest k

/-- JS property write `sessions[k] = v`: an existing key keeps its position,
    a new key is appended (JS objects preserve insertion order for
    non-numeric string keys). -/
def setSession : List (String × Session) → String → Session → List (String × Session)
  | [], k, v => [(k, v)]
  | (k2, v2) :: rest, k, v =>
    if k2 = k then (k, v) :: rest else (k2, v2) :: setSession rest k v

/-- Modelled from the spec: `Reporter.formatError` (defined outside this
    slice) renders an error for display; modelled as the error's message. -/
def formatError (e : String) : String := e

/-- Model of JS number formatting for `timeElapsed / 1000` at exact
    millisecond inputs: quotient, then a '.' and the non-zero fractional
    digits (float shortest-round-trip rendering abstracted). -/
def msToSecondsStr (ms : Nat) : String :=
  let q := ms / 1000
  let r := ms % 1000
  if r = 0 then toString q
  else
    let digits := (toString (1000 + r)).data.drop 1
    let digits := (digits.reverse.dropWhile (fun c => c = '0')).reverse
    toString q ++ "." ++ String.mk digits

/-- `Runner.coverage`: `const session = this.sessions[message.sessionId || ''];
    session.coverage = session.coverage || createCoverageMap();
    session.coverage.merge(message.coverage);`
    When no session is registered under the key, `session` is `undefined` and
    the property assignment throws a `TypeError` (modelled as `Except.error`);
    nothing has been mutated at that point. -/
def Runner.coverage (st : RunnerState) (message : CoverageMessage) : Except String RunnerState :=
  match lookupSession st.sessions (jsOrEmpty message.sessionId) with
  | none => Except.error "TypeError: cannot set properties of undefined"
  | some session =>
    let cov := match session.coverage with
      | some c => c
      | none => createCoverageMap
    let cov := covMerge cov message.coverage
    Except.ok { st with
      sessions := setSession st.sessions (jsOrEmpty message.sessionId)
        { session with coverage := some cov } }

/-- The dedup key `` `${message.original}|${message.replacement}|${message.message}` ``. -/
def deprecKey (m : DeprecationMessage) : String :=
  m.original ++ "|" ++ jsStr m.replacement ++ "|" ++ jsStr m.message

/-- `Runner.deprecated`: render a deprecation notice unless its key has been
    seen before. -/
def Runner.deprecated (st : RunnerState) (m : DeprecationMessage) : RunnerState × List Out :=
  if st.deprecationMessages.contains (deprecKey m) then
    (st, [])
  else
    ({ st with deprecationMessages := deprecKey m :: st.deprecationMessages },
      [Out.foreground "yellow", Out.write ("⚠︎ " ++ m.original ++ " is deprecated. ")]
      ++ (if jsTruthy m.replacement then
            [Out.write ("Use " ++ jsStr m.replacement ++ " instead.")]
          else
            [Out.write ("Please open a ticket at https://github.com/theintern/intern/issues if you still " ++
              "require access to this function.")])
      ++ (if jsTruthy m.message then [Out.write (" " ++ jsStr m.message)] else [])
      ++ [Out.write "\n", Out.display "reset"])

/-- `Runner.error`: report a run-level error and set `hasErrors`. -/
def Runner.error (st : RunnerState) (e : String) : RunnerState × List Out :=
  ({ st with hasErrors := true },
    [Out.foreground "red", Out.write "(ノಠ益ಠ)ノ彡┻━┻\n", Out.write (formatError e),
     Out.display "reset", Out.write "\n\n"])

/-- `Runner.log`: one `console.log` line per line of the message. -/
def Runner.log (message : String) : List Out :=
  (message.splitOn "\n").map (fun line => Out.consoleLog ("DEBUG: " ++ line))

/-- The body of the `forEach` inside `Runner.runEnd`: merge the session's
    coverage (when present) into the accumulated map and add the session's
    root suite counters to the running totals
    (tests, failed, skipped order as in the source). -/
def runEndStep (acc : CovMap × Nat × Nat × Nat) (p : String × Session) : CovMap × Nat × Nat × Nat :=
  let m := match p.2.coverage with
    | some c => covMerge acc.1 c
    | none => acc.1
  (m, acc.2.1 + p.2.suite.info.numTests,
      acc.2.2.1 + p.2.suite.info.numFailedTests,
      acc.2.2.2 + p.2.suite.info.numSkippedTests)

/-- `Runner.runEnd`: when more than one session is registered, write the
    combined coverage report (if the merged map is non-empty) and the
    combined TOTAL summary line; otherwise do nothing. -/
def Runner.runEnd (st : RunnerState) : List Out :=
  let sessionIds := st.sessions.map Prod.fst
  let numEnvironments := sessionIds.length
  if 1 < sessionIds.length then
    let acc := st.sessions.foldl runEndStep (createCoverageMap, 0, 0, 0)
    let map := acc.1
    let numTests := acc.2.1
    let numFailedTests := acc.2.2.1
    let numSkippedTests := acc.2.2.2
    let covOut :=
      if 0 < map.files.length then
        [Out.write "\n", Out.display "bright", Out.write "Total coverage\n",
         Out.display "reset", Out.coverageReport map]
      else []
    let message := "TOTAL: tested %d platforms, %d/%d tests failed"
    let message := if numSkippedTests ≠ 0 then
        message ++ " (" ++ toString numSkippedTests ++ " skipped)"
      else message
    let message := if st.hasErrors && numFailedTests == 0 then
        message ++ "; fatal error occurred"
      else message
    covOut ++
      [Out.display "bright",
       Out.foreground (if 0 < numFailedTests || st.hasErrors then "red" else "green"),
       Out.write (nodeFormat message
         [FmtArg.num numEnvironments, FmtArg.num numFailedTests, FmtArg.num numTests]),
       Out.display "reset", Out.write "\n"]
  else []

/-- `Runner.serverStart`: `socketPort` is appended only when truthy
    (a `0` port is falsy in JS). -/
def Runner.serverStart (port : Nat) (socketPort : Option Nat) : List Out :=
  let message := "Listening on localhost:" ++ toString port
  let message := match socketPort with
    | some p => if p ≠ 0 then message ++ " (ws " ++ toString p ++ ")" else message
    | none => message
  [Out.write (message ++ "\n")]

/-- `Runner.suiteEnd`.  A suite carrying an error is reported (and
    `hasErrors` set) in the first branch, regardless of its parent; only
    otherwise does the root-suite branch render the per-session coverage and
    summary.  `numFailedTests || hasError > 0` in the source parses as
    `numFailedTests || (hasError > 0)`, and in this branch `hasError` is the
    boolean produced by the tree walk. -/
def Runner.suiteEnd (st : RunnerState) (suite : Suite) : RunnerState × List Out :=
  if suite.info.error.isSome then
    ({ st with hasErrors := true },
      [Out.foreground "red", Out.write ("Suite " ++ suite.info.id ++ " FAILED\n"),
       Out.write (formatError (jsOrEmpty suite.info.error)),
       Out.display "reset", Out.write "\n"])
  else if !suite.info.hasParent then
    match lookupSession st.sessions (jsOrEmpty suite.info.sessionId) with
    | none =>
      (st,
        if !st.serveOnly then
          [Out.display "bright", Out.foreground "yellow",
           Out.write ("BUG: suiteEnd was received for invalid session " ++ jsStr suite.info.sessionId),
           Out.display "reset", Out.write "\n"]
        else [])
    | some session =>
      let covOut := match session.coverage with
        | some c => [Out.write "\n", Out.coverageReport c]
        | none => [Out.write ("No unit test coverage for " ++ suite.info.name),
                   Out.display "reset", Out.write "\n"]
      let hasErr := hasErrorWalk (TNode.suite suite.info suite.tests)
      let numFailedTests := suite.info.numFailedTests
      let numTests := suite.info.numTests
      let numSkippedTests := suite.info.numSkippedTests
      let summary := nodeFormat "%s: %d/%d tests failed"
        [FmtArg.str suite.info.name, FmtArg.num numFailedTests, FmtArg.num numTests]
      let summary := if numSkippedTests ≠ 0 then
          summary ++ " (" ++ toString numSkippedTests ++ " skipped)"
        else summary
      let summary := if hasErr then summary ++ "; fatal error occurred" else summary
      (st, covOut ++
        [Out.display "bright",
         Out.foreground (if 0 < numFailedTests || hasErr then "red" else "green"),
         Out.write summary, Out.display "reset", Out.write "\n"])
  else (st, [])

/-- `Runner.suiteStart`: a parent-less suite is registered under
    `suite.sessionId || ''` as a fresh entry with no coverage; the remote
    session notice is written only for a truthy session id. -/
def Runner.suiteStart (st : RunnerState) (suite : Suite) : RunnerState × List Out :=
  if !suite.info.hasParent then
    let entry : Session := { suite := suite, coverage := none }
    ({ st with sessions := setSession st.sessions (jsOrEmpty suite.info.sessionId) entry },
      if jsTruthy suite.info.sessionId then
        [Out.write "\n",
         Out.write ("‣ Created remote session " ++ suite.info.name ++ " (" ++
           jsOrEmpty suite.info.sessionId ++ ")\n")]
      else [])
  else (st, [])

/-- `Runner.testEnd`: a test with an error is always reported; otherwise a
    truthy `skipped` reason selects the skip branch (gated by `hideSkipped`)
    and the remaining tests the pass branch (gated by `hidePassed`). -/
def Runner.testEnd (st : RunnerState) (test : TestR) : List Out :=
  match test.error with
  | some e =>
    [Out.foreground "red", Out.write ("× " ++ test.id),
     Out.write (" (" ++ msToSecondsStr test.timeElapsed ++ "s)"), Out.write "\n",
     Out.display "reset", Out.foreground "red", Out.write (formatError e),
     Out.display "reset", Out.write "\n"]
  | none =>
    if jsTruthy test.skipped then
      if !st.hideSkipped then
        [Out.foreground "magenta", Out.write ("~ " ++ test.id), Out.display "reset",
         Out.write (" (" ++ jsOr test.skipped "skipped" ++ ")"),
         Out.display "reset", Out.write "\n"]
      else []
    else
      if !st.hidePassed then
        [Out.foreground "green", Out.write ("✓ " ++ test.id), Out.display "reset",
         Out.write (" (" ++ msToSecondsStr test.timeElapsed ++ "s)"),
         Out.display "reset", Out.write "\n"]
      else []

/-- Model of `(received / total * 100).toFixed(3)` at integer inputs
    (float arithmetic and round-to-nearest abstracted by scaled integer
    division). -/
def toFixed3 (received total : Nat) : String :=
  let scaled := received * 100000 / total
  toString (scaled / 1000) ++ "." ++ String.mk ((toString (1000 + scaled % 1000)).data.drop 1)

/-- `Runner.tunnelDownloadProgress`: `message.progress!` is a bare property
    access, so a missing progress object throws at `.received`. -/
def Runner.tunnelDownloadProgress (message : TunnelMessage) : Except String (List Out) :=
  match message.progress with
  | none => Except.error "TypeError: cannot read properties of undefined"
  | some p => Except.ok [Out.write ("Tunnel download: " ++ toFixed3 p.received p.total ++ "%\r")]

def Runner.tunnelStart : List Out := [Out.write "Tunnel started\n"]

def Runner.tunnelStatus (message : TunnelMessage) : List Out :=
  [Out.write (jsStr message.status ++ "\x1b[K\r")]

/-- The events dispatched to the reporter's handlers. -/
inductive Event where
  | coverage (message : CoverageMessage)
  | deprecated (message : DeprecationMessage)
  | error (e : String)
  | log (message : String)
  | runEnd
  | serverStart (port : Nat) (socketPort : Option Nat)
  | suiteEnd (suite : Suite)
  | suiteStart (suite : Suite)
  | testEnd (test : TestR)
  | tunnelDownloadProgress (message : TunnelMessage)
  | tunnelStart
  | tunnelStatus (message : TunnelMessage)

/-- Dispatch of one event to its handler: the next reporter state and the
    output produced, or the exception a handler throws. -/
def step (st : RunnerState) : Event → Except String (RunnerState × List Out)
  | Event.coverage m => (Runner.coverage st m).map (fun st2 => (st2, []))
  | Event.deprecated m => Except.ok (Runner.deprecated st m)
  | Event.error e => Except.ok (Runner.error st e)
  | Event.log m => Except.ok (st, Runner.log m)
  | Event.runEnd => Except.ok (st, Runner.runEnd st)
  | Event.serverStart p sp => Except.ok (st, Runner.serverStart p sp)
  | Event.suiteEnd s => Except.ok (Runner.suiteEnd st s)
  | Event.suiteStart s => Except.ok (Runner.suiteStart st s)
  | Event.testEnd t => Except.ok (st, Runner.testEnd st t)
  | Event.tunnelDownloadProgress m => (Runner.tunnelDownloadProgress m).map (fun o => (st, o))
  | Event.tunnelStart => Except.ok (st, Runner.tunnelStart)
  | Event.tunnelStatus m => Except.ok (st, Runner.tunnelStatus m)

/-- Serialized event dispatch: process events one at a time, stopping at a
    thrown exception. -/
def runSteps (st : RunnerState) : List Event → Except String RunnerState
  | [] => Except.ok st
  | e :: es =>
    match step st e with
    | Except.ok (st2, _) => runSteps st2 es
    | Except.error msg => Except.error msg

/-! Pointwise aggregates over the session map, stated the way the
    specification describes them (sum of a projected field over all
    registered sessions), to be compared with the single-pass accumulation
    the code performs. -/

def sumNumTests (l : List (String × Session)) : Nat :=
  (l.map (fun p => p.2.suite.info.numTests)).sum

def sumNumFailedTests (l : List (String × Session)) : Nat :=
  (l.map (fun p => p.2.suite.info.numFailedTests)).sum

def sumNumSkippedTests (l : List (String × Session)) : Nat :=
  (l.map (fun p => p.2.suite.info.numSkippedTests)).sum

/-- Cumulative merge of the registered sessions' coverage maps. -/
def mergeCovs (m : CovMap) (l : List (String × Session)) : CovMap :=
  l.foldl (fun acc p =>
    match p.2.coverage with
    | some c => covMerge acc c
    | none => acc) m

def combinedCoverage (st : RunnerState) : CovMap :=
  mergeCovs createCoverageMap st.sessions

/-- The TOTAL block of `runEnd`, described from the spec's aggregate
    quantities: one summary line `TOTAL: tested <env> platforms,
    <failed>/<tests> tests failed`, the skip suffix when `skipped` is
    non-zero, the fatal suffix when the run has errors and no failed test,
    and failure styling exactly when `failed > 0` or the run has errors. -/
def specTotalTail (env tests failed skipped : Nat) (hasErrs : Bool) : List Out :=
  let message := "TOTAL: tested %d platforms, %d/%d tests failed"
  let message := if skipped ≠ 0 then
      message ++ " (" ++ toString skipped ++ " skipped)"
    else message
  let message := if hasErrs && failed == 0 then
      message ++ "; fatal error occurred"
    else message
  [Out.display "bright",
   Out.foreground (if 0 < failed || hasErrs then "red" else "green"),
   Out.write (nodeFormat message [FmtArg.num env, FmtArg.num failed, FmtArg.num tests]),
   Out.display "reset", Out.write "\n"]

/-! Concrete fixtures used by the claim theorems below. -/

def c5Suite : Suite :=
  { info := { name := "child", id := "parent - child", sessionId := some "s",
              hasParent := true, error := some "teardown failed",
              numTests := 3, numFailedTests := 0, numSkippedTests := 0 },
    tests := [] }

def c5wSuite : Suite :=
  { info := { name := "inner", id := "parent - inner", sessionId := some "s",
              hasParent := true, error := none,
              numTests := 2, numFailedTests := 1, numSkippedTests := 0 },
    tests := [] }

def c9Suite : Suite :=
  { info := { name := "chrome 99", id := "chrome 99", sessionId := some "abc123",
              hasParent := false, error := none,
              numTests := 4, numFailedTests := 0, numSkippedTests := 0 },
    tests := [] }

def c10Test : TestR :=
  { id := "suite - fails", error := some "assertion failed", skipped := none,
    timeElapsed := 1234 }

/-- Whether an output trace contains a coverage-report emission. -/
def hasCoverageReport (l : List Out) : Bool :=
  l.any (fun o => match o with
    | Out.coverageReport _ => true
    | _ => false)

/-- The skip suffix of a summary line, as the spec words it: present exactly
    when the skipped counter is non-zero. -/
def addSkipSuffix (skipped : Nat) (s : String) : String :=
  if skipped ≠ 0 then s ++ " (" ++ toString skipped ++ " skipped)" else s

/-- The fatal-error suffix of a summary line, keyed on the given flag. -/
def addFatalSuffix (b : Bool) (s : String) : String :=
  if b then s ++ "; fatal error occurred" else s

def c2Suite : Suite :=
  { info := { name := "root", id := "root", sessionId := some "s",
              hasParent := false, error := none,
              numTests := 1, numFailedTests := 0, numSkippedTests := 0 },
    tests := [TNode.test "root - t1" (some "boom") none 0] }

def c2St : RunnerState :=
  { sessions := [("s", { suite := c2Suite, coverage := none })],
    hasErrors := false, hidePassed := false, hideSkipped := false,
    serveOnly := false, deprecationMessages := [] }

def c2wSuite : Suite :=
  { info := { name := "firefox 1", id := "firefox 1", sessionId := some "ws",
              hasParent := false, error := none,
              numTests := 2, numFailedTests := 0, numSkippedTests := 1 },
    tests := [TNode.suite
      { name := "inner", id := "firefox 1 - inner", sessionId := some "ws",
        hasParent := true, error := some "setup failed",
        numTests := 2, numFailedTests := 0, numSkippedTests := 1 } []] }

def c2wSt : RunnerState :=
  { sessions := [("ws", { suite := c2wSuite, coverage := none })],
    hasErrors := false, hidePassed := false, hideSkipped := false,
    serveOnly := false, deprecationMessages := [] }

def c3SuiteA : Suite :=
  { info := { name := "chrome", id := "chrome", sessionId := some "a",
              hasParent := false, error := none,
              numTests := 10, numFailedTests := 2, numSkippedTests := 1 },
    tests := [] }

def c3SuiteB : Suite :=
  { info := { name := "firefox", id := "firefox", sessionId := some "b",
              hasParent := false, error := none,
              numTests := 5, numFailedTests := 0, numSkippedTests := 0 },
    tests := [] }

def c3St : RunnerState :=
  { sessions := [("a", { suite := c3SuiteA, coverage := none }),
                 ("b", { suite := c3SuiteB, coverage := none })],
    hasErrors := false, hidePassed := false, hideSkipped := false,
    serveOnly := false, deprecationMessages := [] }

def c4SuiteA : Suite :=
  { info := { name := "edge", id := "edge", sessionId := some "a",
              hasParent := false, error := none,
              numTests := 1, numFailedTests := 0, numSkippedTests := 0 },
    tests := [] }

def c4SuiteB : Suite :=
  { info := { name := "safari", id := "safari", sessionId := some "b",
              hasParent := false, error := none,
              numTests := 2, numFailedTests := 1, numSkippedTests := 0 },
    tests := [] }

def c4St : RunnerState :=
  { sessions := [("a", { suite := c4SuiteA, coverage := none }),
                 ("b", { suite := c4SuiteB, coverage := none })],
    hasErrors := false, hidePassed := false, hideSkipped := false,
    serveOnly := false, deprecationMessages := [] }

def c4wSt : RunnerState :=
  { sessions := [("a", { suite := c4SuiteA, coverage := some { files := ["src/x.ts"] } })],
    hasErrors := false, hidePassed := false, hideSkipped := false,
    serveOnly := false, deprecationMessages := [] }

def c6ErrSt : RunnerState :=
  { sessions := [], hasErrors := true, hidePassed := false, hideSkipped := false,
    serveOnly := false, deprecationMessages := [] }

def c7m1 : DeprecationMessage :=
  { original := "a|b", replacement := some "c", message := none }

def c7m2 : DeprecationMessage :=
  { original := "a", replacement := some "b|c", message := none }

def c7w : DeprecationMessage :=
  { original := "oldApi", replacement := some "newApi", message := some "see docs" }

def c8St : RunnerState :=
  { sessions := [("a", { suite := c4SuiteA, coverage := none }),
                 ("c", { suite := c9Suite, coverage := none })],
    hasErrors := true, hidePassed := false, hideSkipped := false,
    serveOnly := false, deprecationMessages := [] }

/-! Lemmas about the format model. -/

theorem substFmt_nilargs (xs : List Char) : substFmt xs [] = xs := by
  cases xs <;> rfl

theorem substFmt_cons_ne (c : Char) (rest : List Char) (a : FmtArg) (as : List FmtArg)
    (h : c ≠ '%') : substFmt (c :: rest) (a :: as) = c :: substFmt rest (a :: as) := by
  rw [substFmt.eq_def]
  simp [h]

theorem substFmt_pd (r2 : List Char) (v : Nat) (as : List FmtArg) :
    substFmt ('%' :: 'd' :: r2) (FmtArg.num v :: as) = (toString v).data ++ substFmt r2 as := by
  rfl

theorem substFmt_ps (r2 : List Char) (v : String) (as : List FmtArg) :
    substFmt ('%' :: 's' :: r2) (FmtArg.str v :: as) = v.data ++ substFmt r2 as := by
  rfl

theorem substFmt_lit (xs ys : List Char) (args : List FmtArg)
    (h : ∀ c ∈ xs, c ≠ '%') :
    substFmt (xs ++ ys) args = xs ++ substFmt ys args := by
  induction xs with
  | nil => rfl
  | cons c rest ih =>
    cases args with
    | nil => rw [substFmt_nilargs, substFmt_nilargs]
    | cons a as =>
      rw [List.cons_append, substFmt_cons_ne c _ a as (h c (List.mem_cons_self c rest))]
      rw [ih (fun x hx => h x (List.mem_cons_of_mem c hx)), List.cons_append]

theorem substFmt_lit_pd (xs r2 : List Char) (v : Nat) (as : List FmtArg)
    (h : ∀ c ∈ xs, c ≠ '%') :
    substFmt (xs ++ '%' :: 'd' :: r2) (FmtArg.num v :: as) =
      xs ++ ((toString v).data ++ substFmt r2 as) := by
  rw [substFmt_lit xs _ _ h, substFmt_pd]

/-- Computed form of the formatted TOTAL line: the three `%d` placeholders
    receive the environment, failed and total counters, and any appended
    suffix text passes through verbatim. -/
theorem nodeFormat_total (extra : String) (n f t : Nat) :
    nodeFormat ("TOTAL: tested %d platforms, %d/%d tests failed" ++ extra)
      [FmtArg.num n, FmtArg.num f, FmtArg.num t] =
    "TOTAL: tested " ++ toString n ++ " platforms, " ++ toString f ++ "/" ++
      toString t ++ " tests failed" ++ extra := by
  apply String.ext
  unfold nodeFormat
  have ebase : ("TOTAL: tested %d platforms, %d/%d tests failed" : String).data =
      "TOTAL: tested ".data ++ '%' :: 'd' :: (" platforms, ".data ++ '%' :: 'd' ::
        ("/".data ++ '%' :: 'd' :: " tests failed".data)) := by decide
  conv_lhs =>
    rw [String.data_append, ebase, List.append_assoc, List.cons_append '%', List.cons_append 'd']
    rw [substFmt_lit_pd _ _ _ _ (by decide)]
    rw [List.append_assoc, List.cons_append '%', List.cons_append 'd']
    rw [substFmt_lit_pd _ _ _ _ (by decide)]
    rw [List.append_assoc, List.cons_append '%', List.cons_append 'd']
    rw [substFmt_lit_pd _ _ _ _ (by decide)]
    rw [substFmt_nilargs]
  simp [String.data_append, List.append_assoc]

/-- Computed form of the per-session summary line of `suiteEnd`. -/
theorem nodeFormat_summary (name : String) (f t : Nat) :
    nodeFormat "%s: %d/%d tests failed" [FmtArg.str name, FmtArg.num f, FmtArg.num t] =
    name ++ ": " ++ toString f ++ "/" ++ toString t ++ " tests failed" := by
  apply String.ext
  unfold nodeFormat
  have ebase : ("%s: %d/%d tests failed" : String).data =
      '%' :: 's' :: (": ".data ++ '%' :: 'd' :: ("/".data ++ '%' :: 'd' :: " tests failed".data)) := by
    decide
  conv_lhs =>
    rw [ebase, substFmt_ps]
    rw [substFmt_lit_pd _ _ _ _ (by decide)]
    rw [substFmt_lit_pd _ _ _ _ (by decide)]
    rw [substFmt_nilargs]
  simp [String.data_append, List.append_assoc]

/-! Lemmas about the session map operations. -/

theorem lookupSession_setSession_self (m : List (String × Session)) (k : String) (v : Session) :
    lookupSession (setSession m k v) k = some v := by
  induction m with
  | nil => simp [setSession, lookupSession]
  | cons p rest ih =>
    obtain ⟨k2, v2⟩ := p
    by_cases h : k2 = k
    · simp [setSession, h, lookupSession]
    · simp [setSession, h, lookupSession, ih]

theorem lookupSession_setSession_ne (m : List (String × Session)) (k : String) (v : Session)
    (k2 : String) (h : k2 ≠ k) :
    lookupSession (setSession m k v) k2 = lookupSession m k2 := by
  induction m with
  | nil =>
    simp only [setSession, lookupSession]
    rw [if_neg (fun e => h e.symm)]
  | cons p rest ih =>
    obtain ⟨k3, v3⟩ := p
    by_cases h3 : k3 = k
    · subst h3
      simp only [setSession, if_pos rfl, lookupSession]
      rw [if_neg (fun e => h e.symm), if_neg (fun e => h e.symm)]
    · simp only [setSession, if_neg h3, lookupSession]
      by_cases h2 : k3 = k2
      · rw [if_pos h2, if_pos h2]
      · rw [if_neg h2, if_neg h2, ih]

theorem mem_keys_setSession (m : List (String × Session)) (k : String) (v : Session)
    (x : String) (hx : x ∈ (setSession m k v).map Prod.fst) :
    x ∈ m.map Prod.fst ∨ x = k := by
  induction m with
  | nil => simpa [setSession] using hx
  | cons p rest ih =>
    obtain ⟨k2, v2⟩ := p
    by_cases h : k2 = k
    · simp only [setSession, if_pos h] at hx
      simp only [List.map_cons, List.mem_cons] at hx ⊢
      rcases hx with h1 | h1
      · right; exact h1
      · left; right; exact h1
    · simp only [setSession, if_neg h] at hx
      simp only [List.map_cons, List.mem_cons] at hx ⊢
      rcases hx with h1 | h1
      · left; left; exact h1
      · rcases ih h1 with h2 | h2
        · left; right; exact h2
        · right; exact h2

theorem nodup_keys_setSession (m : List (String × Session)) (k : String) (v : Session)
    (h : (m.map Prod.fst).Nodup) : ((setSession m k v).map Prod.fst).Nodup := by
  induction m with
  | nil => simp [setSession]
  | cons p rest ih =>
    obtain ⟨k2, v2⟩ := p
    simp only [List.map_cons, List.nodup_cons] at h
    by_cases hk : k2 = k
    · subst hk
      simpa [setSession, List.nodup_cons] using h
    · simp only [setSession, if_neg hk, List.map_cons, List.nodup_cons]
      refine ⟨fun hmem => ?_, ih h.2⟩
      rcases mem_keys_setSession rest k v k2 hmem with h2 | h2
      · exact h.1 h2
      · exact hk h2

/-! Lemmas about the aggregation pass of `runEnd`. -/

theorem foldl_runEndStep (l : List (String × Session)) (m0 : CovMap) (a b c : Nat) :
    l.foldl runEndStep (m0, a, b, c) =
      (mergeCovs m0 l, a + sumNumTests l, b + sumNumFailedTests l, c + sumNumSkippedTests l) := by
  induction l generalizing m0 a b c with
  | nil => simp [mergeCovs, sumNumTests, sumNumFailedTests, sumNumSkippedTests]
  | cons p rest ih =>
    rw [List.foldl_cons, runEndStep, ih]
    simp only [mergeCovs, List.foldl_cons, sumNumTests, sumNumFailedTests, sumNumSkippedTests,
      List.map_cons, List.sum_cons, Prod.mk.injEq]
    refine ⟨trivial, ?_, ?_, ?_⟩ <;> omega

theorem hasErrorWalkList_eq_any (ts : List TNode) :
    hasErrorWalkList ts = ts.any hasErrorWalk := by
  induction ts with
  | nil => rfl
  | cons t rest ih => rw [hasErrorWalkList, ih, List.any_cons]

/-- Under more than one registered session, `runEnd` is the coverage block
    (emitted only for a non-empty merged map) followed by the TOTAL block
    built from the pointwise aggregates. -/
theorem runEnd_eq (st : RunnerState) (h : 1 < st.sessions.length) :
    Runner.runEnd st =
      (if 0 < (combinedCoverage st).files.length then
        [Out.write "\n", Out.display "bright", Out.write "Total coverage\n",
         Out.display "reset", Out.coverageReport (combinedCoverage st)]
      else []) ++
      specTotalTail st.sessions.length (sumNumTests st.sessions)
        (sumNumFailedTests st.sessions) (sumNumSkippedTests st.sessions) st.hasErrors := by
  rw [Runner.runEnd]
  simp only [List.length_map]
  rw [if_pos h, foldl_runEndStep]
  simp only [Nat.zero_add]
  rfl

/-! The claims. -/

/-- C1: the claim states that a coverage event for a session with no
    registered entry never throws (it is ignored or reported as a
    diagnostic, leaving the sessions map unchanged).  The code instead
    dereferences the `undefined` session record, so the handler throws a
    `TypeError`.  This theorem evaluates the handler at the failing inputs:
    a run with an empty sessions map receiving a coverage event for a remote
    session id, and one receiving a coverage event with an absent session
    id. -/
theorem coverage_unknown_session_throws :
    Runner.coverage (initRunner false false false)
      { sessionId := some "remote-1", coverage := { files := ["src/a.ts"] } } =
      Except.error "TypeError: cannot set properties of undefined" ∧
    Runner.coverage (initRunner true false false)
      { sessionId := none, coverage := { files := [] } } =
      Except.error "TypeError: cannot set properties of undefined" :=
  ⟨rfl, rfl⟩

/-- C5 counterexample: a suite that has a parent but carries an error is
    acted upon: `suiteEnd` writes the failure report and flips `hasErrors`,
    refuting the claim that `suiteEnd` performs no action for every suite
    with a parent. -/

theorem suiteEnd_parented_error_cex :
    c5Suite.info.hasParent = true ∧
    Runner.suiteEnd (initRunner false false false) c5Suite =
      ({ initRunner false false false with hasErrors := true },
       [Out.foreground "red", Out.write "Suite parent - child FAILED\n",
        Out.write "teardown failed", Out.display "reset", Out.write "\n"]) ∧
    (Runner.suiteEnd (initRunner false false false) c5Suite).1.hasErrors = true ∧
    (Runner.suiteEnd (initRunner false false false) c5Suite).2.length = 5 :=
  ⟨rfl, rfl, rfl, rfl⟩

/-- C5 (amended): for every suite that has a parent and carries no error,
    `suiteEnd` performs no action — it writes nothing and leaves the state
    (including `hasErrors` and the sessions map) unchanged; a suite carrying
    an error is instead reported and sets `hasErrors`, regardless of whether
    it has a parent. -/
theorem suiteEnd_parented_no_action (st : RunnerState) (s : Suite) :
    (s.info.hasParent = true → s.info.error = none → Runner.suiteEnd st s = (st, [])) ∧
    (∀ e, s.info.error = some e →
      Runner.suiteEnd st s =
        ({ st with hasErrors := true },
         [Out.foreground "red", Out.write ("Suite " ++ s.info.id ++ " FAILED\n"),
          Out.write (formatError e), Out.display "reset", Out.write "\n"])) := by
  constructor
  · intro hp he
    rw [Runner.suiteEnd, he]
    simp [hp]
  · intro e he
    rw [Runner.suiteEnd, he]
    simp [jsOrEmpty]


theorem suiteEnd_parented_no_action_w :
    c5wSuite.info.hasParent = true ∧ c5wSuite.info.error = none ∧
    Runner.suiteEnd (initRunner false false false) c5wSuite = (initRunner false false false, []) :=
  ⟨rfl, rfl,
    (suiteEnd_parented_no_action (initRunner false false false) c5wSuite).1 rfl rfl⟩

/-- C9: `suiteStart` leaves the sessions map unchanged for a suite with a
    parent; for a parent-less suite it binds the key `suite.sessionId || ''`
    to a fresh entry holding the suite and no coverage map, overwriting any
    prior entry under that key, leaving every other key unchanged and
    preserving key uniqueness. -/
theorem suiteStart_registers (st : RunnerState) (s : Suite) :
    (s.info.hasParent = true → (Runner.suiteStart st s).1 = st) ∧
    (s.info.hasParent = false →
      lookupSession (Runner.suiteStart st s).1.sessions (jsOrEmpty s.info.sessionId) =
        some { suite := s, coverage := none } ∧
      (∀ k, k ≠ jsOrEmpty s.info.sessionId →
        lookupSession (Runner.suiteStart st s).1.sessions k = lookupSession st.sessions k) ∧
      ((st.sessions.map Prod.fst).Nodup →
        ((Runner.suiteStart st s).1.sessions.map Prod.fst).Nodup)) := by
  constructor
  · intro hp
    rw [Runner.suiteStart]
    simp [hp]
  · intro hp
    rw [Runner.suiteStart]
    simp only [hp, Bool.not_false, if_pos]
    refine ⟨lookupSession_setSession_self _ _ _, fun k hk => ?_, fun hn => ?_⟩
    · exact lookupSession_setSession_ne _ _ _ _ hk
    · exact nodup_keys_setSession _ _ _ hn


theorem suiteStart_registers_w :
    c9Suite.info.hasParent = false ∧
    lookupSession (Runner.suiteStart (initRunner false false false) c9Suite).1.sessions
      (jsOrEmpty c9Suite.info.sessionId) = some { suite := c9Suite, coverage := none } :=
  ⟨rfl, ((suiteStart_registers (initRunner false false false) c9Suite).2 rfl).1⟩

/-- C10: `testEnd` reporting is gated by `hidePassed`/`hideSkipped` only for
    tests without an error: a passing test writes nothing when `hidePassed`
    is set, a (truthy-)skipped test writes nothing when `hideSkipped` is
    set, while a test carrying an error is always reported — identifier,
    elapsed time and error message — independently of both flags. -/
theorem testEnd_gating (st : RunnerState) (t : TestR) :
    (∀ e, t.error = some e →
      Runner.testEnd st t =
        [Out.foreground "red", Out.write ("× " ++ t.id),
         Out.write (" (" ++ msToSecondsStr t.timeElapsed ++ "s)"), Out.write "\n",
         Out.display "reset", Out.foreground "red", Out.write (formatError e),
         Out.display "reset", Out.write "\n"]) ∧
    (t.error = none → jsTruthy t.skipped = true → st.hideSkipped = true →
      Runner.testEnd st t = []) ∧
    (t.error = none → jsTruthy t.skipped = false → st.hidePassed = true →
      Runner.testEnd st t = []) := by
  refine ⟨fun e he => ?_, fun he hs hh => ?_, fun he hs hh => ?_⟩
  · rw [Runner.testEnd, he]
  · rw [Runner.testEnd, he]
    simp [hs, hh]
  · rw [Runner.testEnd, he]
    simp [hs, hh]


theorem testEnd_gating_w :
    c10Test.error = some "assertion failed" ∧
    Runner.testEnd (initRunner false true true) c10Test =
      [Out.foreground "red", Out.write ("× " ++ c10Test.id),
       Out.write (" (" ++ msToSecondsStr c10Test.timeElapsed ++ "s)"), Out.write "\n",
       Out.display "reset", Out.foreground "red", Out.write (formatError "assertion failed"),
       Out.display "reset", Out.write "\n"] :=
  ⟨rfl, (testEnd_gating (initRunner false true true) c10Test).1 "assertion failed" rfl⟩

/-- C2 counterexample: a root suite with `numFailedTests = 0` whose only
    error sits on a descendant test leaf.  The recursive `hasError`
    traversal yields `false` (a node without a `tests` array never
    contributes), so the rendered summary is exactly
    "root: 0/1 tests failed" with success styling — no
    "; fatal error occurred" suffix — refuting the claim. -/
theorem suiteEnd_test_error_cex :
    descTestError (TNode.suite c2Suite.info c2Suite.tests) = true ∧
    c2Suite.info.numFailedTests = 0 ∧
    hasErrorWalk (TNode.suite c2Suite.info c2Suite.tests) = false ∧
    Runner.suiteEnd c2St c2Suite = (c2St,
      [Out.write "No unit test coverage for root", Out.display "reset", Out.write "\n",
       Out.display "bright", Out.foreground "green",
       Out.write "root: 0/1 tests failed", Out.display "reset", Out.write "\n"]) :=
  ⟨rfl, rfl, rfl, rfl⟩

/-- C2 (amended): for a root suite with no error of its own and a registered
    session, the `hasError` traversal is insensitive to test leaves — it is
    the disjunction of the suite's own error flag and the traversal of its
    children, and a test node always contributes `false` — and the rendered
    summary carries "; fatal error occurred" and failure styling exactly
    according to that traversal (that is, exactly when some descendant
    *suite* node carries an error), not according to descendant test
    errors. -/
theorem suiteEnd_fatal_flag (st : RunnerState) (s : Suite) (sess : Session)
    (hroot : s.info.hasParent = false) (herr : s.info.error = none)
    (hlook : lookupSession st.sessions (jsOrEmpty s.info.sessionId) = some sess) :
    (∀ id e sk tm, hasErrorWalk (TNode.test id e sk tm) = false) ∧
    hasErrorWalk (TNode.suite s.info s.tests) =
      (s.info.error.isSome || s.tests.any hasErrorWalk) ∧
    ∃ covOut,
      Runner.suiteEnd st s = (st, covOut ++
        [Out.display "bright",
         Out.foreground
           (if 0 < s.info.numFailedTests || hasErrorWalkList s.tests then "red" else "green"),
         Out.write (addFatalSuffix (hasErrorWalkList s.tests)
           (addSkipSuffix s.info.numSkippedTests
             (s.info.name ++ ": " ++ toString s.info.numFailedTests ++ "/" ++
              toString s.info.numTests ++ " tests failed"))),
         Out.display "reset", Out.write "\n"]) := by
  refine ⟨fun id e sk tm => rfl, ?_, ?_⟩
  · rw [hasErrorWalk, hasErrorWalkList_eq_any]
  · rw [Runner.suiteEnd, herr]
    simp only [Option.isSome_none, Bool.false_eq_true, if_false, hroot, Bool.not_false, if_true]
    rw [hlook]
    refine ⟨(match sess.coverage with
      | some c => [Out.write "\n", Out.coverageReport c]
      | none => [Out.write ("No unit test coverage for " ++ s.info.name),
                 Out.display "reset", Out.write "\n"]), ?_⟩
    rw [nodeFormat_summary]
    have hw : hasErrorWalk (TNode.suite s.info s.tests) = hasErrorWalkList s.tests := by
      rw [hasErrorWalk, herr]
      simp
    rw [hw, addFatalSuffix, addSkipSuffix]

def c2wSess : Session := { suite := c2wSuite, coverage := none }

theorem suiteEnd_fatal_flag_w :
    c2wSuite.info.hasParent = false ∧ c2wSuite.info.error = none ∧
    lookupSession c2wSt.sessions (jsOrEmpty c2wSuite.info.sessionId) = some c2wSess ∧
    ((∀ id e sk tm, hasErrorWalk (TNode.test id e sk tm) = false) ∧
     hasErrorWalk (TNode.suite c2wSuite.info c2wSuite.tests) =
       (c2wSuite.info.error.isSome || c2wSuite.tests.any hasErrorWalk) ∧
     ∃ covOut,
       Runner.suiteEnd c2wSt c2wSuite = (c2wSt, covOut ++
         [Out.display "bright",
          Out.foreground
            (if 0 < c2wSuite.info.numFailedTests || hasErrorWalkList c2wSuite.tests
             then "red" else "green"),
          Out.write (addFatalSuffix (hasErrorWalkList c2wSuite.tests)
            (addSkipSuffix c2wSuite.info.numSkippedTests
              (c2wSuite.info.name ++ ": " ++ toString c2wSuite.info.numFailedTests ++ "/" ++
               toString c2wSuite.info.numTests ++ " tests failed"))),
          Out.display "reset", Out.write "\n"])) :=
  ⟨rfl, rfl, rfl, suiteEnd_fatal_flag c2wSt c2wSuite c2wSess rfl rfl rfl⟩

/-- C3: whenever `runEnd` emits the TOTAL block (more than one registered
    session), the three counters in it are the pointwise sums of
    `numTests` / `numFailedTests` / `numSkippedTests` over the root suites
    of all registered sessions, and the platform count is the number of
    registered sessions. -/
theorem runEnd_total_counts (st : RunnerState) (h : 1 < st.sessions.length) :
    ∃ covOut, Runner.runEnd st = covOut ++
      specTotalTail st.sessions.length (sumNumTests st.sessions)
        (sumNumFailedTests st.sessions) (sumNumSkippedTests st.sessions) st.hasErrors :=
  ⟨_, runEnd_eq st h⟩

theorem runEnd_total_counts_w :
    1 < c3St.sessions.length ∧
    Runner.runEnd c3St =
      [Out.display "bright", Out.foreground "red",
       Out.write "TOTAL: tested 2 platforms, 2/15 tests failed (1 skipped)",
       Out.display "reset", Out.write "\n"] ∧
    ∃ covOut, Runner.runEnd c3St = covOut ++
      specTotalTail c3St.sessions.length (sumNumTests c3St.sessions)
        (sumNumFailedTests c3St.sessions) (sumNumSkippedTests c3St.sessions) c3St.hasErrors :=
  ⟨by decide, rfl, runEnd_total_counts c3St (by decide)⟩

/-! Preservation of `hasErrors` by every handler. -/

theorem deprecated_fst_hasErrors (st : RunnerState) (m : DeprecationMessage) :
    (Runner.deprecated st m).1.hasErrors = st.hasErrors := by
  rw [Runner.deprecated]
  split <;> rfl

theorem suiteStart_fst_hasErrors (st : RunnerState) (s : Suite) :
    (Runner.suiteStart st s).1.hasErrors = st.hasErrors := by
  rw [Runner.suiteStart]
  split <;> rfl

theorem suiteEnd_fst_hasErrors (st : RunnerState) (s : Suite) (h : st.hasErrors = true) :
    (Runner.suiteEnd st s).1.hasErrors = true := by
  rw [Runner.suiteEnd]
  split
  · rfl
  · split
    · split <;> exact h
    · exact h

theorem coverage_ok_hasErrors (st : RunnerState) (m : CoverageMessage) (st2 : RunnerState)
    (h : Runner.coverage st m = Except.ok st2) : st2.hasErrors = st.hasErrors := by
  rw [Runner.coverage] at h
  split at h
  · exact absurd h (by simp)
  · injection h with h2
    rw [← h2]

theorem step_hasErrors_mono (st : RunnerState) (e : Event) (st2 : RunnerState) (out : List Out)
    (h : step st e = Except.ok (st2, out)) (htrue : st.hasErrors = true) :
    st2.hasErrors = true := by
  cases e with
  | coverage m =>
    simp only [step] at h
    cases hc : Runner.coverage st m with
    | error msg => rw [hc] at h; simp [Except.map] at h
    | ok stx =>
      rw [hc] at h
      simp only [Except.map, Except.ok.injEq, Prod.mk.injEq] at h
      rw [← h.1, coverage_ok_hasErrors st m stx hc]
      exact htrue
  | deprecated m =>
    simp only [step, Except.ok.injEq] at h
    have h2 : st2 = (Runner.deprecated st m).1 := by rw [h]
    rw [h2, deprecated_fst_hasErrors]
    exact htrue
  | error e0 =>
    simp only [step, Except.ok.injEq] at h
    have h2 : st2 = (Runner.error st e0).1 := by rw [h]
    rw [h2]
    rfl
  | log m =>
    simp only [step, Except.ok.injEq, Prod.mk.injEq] at h
    rw [← h.1]; exact htrue
  | runEnd =>
    simp only [step, Except.ok.injEq, Prod.mk.injEq] at h
    rw [← h.1]; exact htrue
  | serverStart p sp =>
    simp only [step, Except.ok.injEq, Prod.mk.injEq] at h
    rw [← h.1]; exact htrue
  | suiteEnd s =>
    simp only [step, Except.ok.injEq] at h
    have h2 : st2 = (Runner.suiteEnd st s).1 := by rw [h]
    rw [h2]
    exact suiteEnd_fst_hasErrors st s htrue
  | suiteStart s =>
    simp only [step, Except.ok.injEq] at h
    have h2 : st2 = (Runner.suiteStart st s).1 := by rw [h]
    rw [h2, suiteStart_fst_hasErrors]
    exact htrue
  | testEnd t =>
    simp only [step, Except.ok.injEq, Prod.mk.injEq] at h
    rw [← h.1]; exact htrue
  | tunnelDownloadProgress m =>
    simp only [step] at h
    cases hp : m.progress with
    | none =>
      rw [Runner.tunnelDownloadProgress, hp] at h
      simp [Except.map] at h
    | some p =>
      rw [Runner.tunnelDownloadProgress, hp] at h
      simp only [Except.map, Except.ok.injEq, Prod.mk.injEq] at h
      rw [← h.1]; exact htrue
  | tunnelStart =>
    simp only [step, Except.ok.injEq, Prod.mk.injEq] at h
    rw [← h.1]; exact htrue
  | tunnelStatus m =>
    simp only [step, Except.ok.injEq, Prod.mk.injEq] at h
    rw [← h.1]; exact htrue

theorem runSteps_hasErrors_mono (es : List Event) : ∀ st st2 : RunnerState,
    runSteps st es = Except.ok st2 → st.hasErrors = true → st2.hasErrors = true := by
  induction es with
  | nil =>
    intro st st2 h htrue
    rw [runSteps] at h
    injection h with h2
    rw [← h2]
    exact htrue
  | cons e rest ih =>
    intro st st2 h htrue
    rw [runSteps] at h
    cases hs : step st e with
    | error msg => rw [hs] at h; simp at h
    | ok p =>
      obtain ⟨stx, outx⟩ := p
      rw [hs] at h
      exact ih stx st2 h (step_hasErrors_mono st e stx outx hs htrue)

/-- C6: the `hasErrors` flag is sticky — it is `false` at construction, no
    event handler that returns normally ever resets it from `true` to
    `false`, and once `true` it remains `true` across any subsequent
    sequence of dispatched events. -/
theorem hasErrors_sticky :
    (∀ so hp hs, (initRunner so hp hs).hasErrors = false) ∧
    (∀ (st : RunnerState) (e : Event) (st2 : RunnerState) (out : List Out),
      step st e = Except.ok (st2, out) → st.hasErrors = true → st2.hasErrors = true) ∧
    (∀ (es : List Event) (st st2 : RunnerState),
      runSteps st es = Except.ok st2 → st.hasErrors = true → st2.hasErrors = true) :=
  ⟨fun _ _ _ => rfl, step_hasErrors_mono, runSteps_hasErrors_mono⟩

theorem hasErrors_sticky_w :
    (initRunner false false false).hasErrors = false ∧ c6ErrSt.hasErrors = true :=
  ⟨hasErrors_sticky.1 false false false,
   hasErrors_sticky.2.1 c6ErrSt Event.tunnelStart c6ErrSt [Out.write "Tunnel started\n"] rfl rfl⟩

/-- C7 counterexample: two distinct deprecation triples whose joined keys
    coincide (a component containing the '|' separator): the second event
    writes nothing and changes nothing, refuting the claim that events with
    distinct (original, replacement, message) triples are each rendered. -/
theorem deprecated_collision_cex :
    (c7m1 == c7m2) = false ∧
    deprecKey c7m1 = deprecKey c7m2 ∧
    (Runner.deprecated (initRunner false false false) c7m1).2.isEmpty = false ∧
    (Runner.deprecated (Runner.deprecated (initRunner false false false) c7m1).1 c7m2).2 = [] ∧
    (Runner.deprecated (Runner.deprecated (initRunner false false false) c7m1).1 c7m2).1.deprecationMessages =
      (Runner.deprecated (initRunner false false false) c7m1).1.deprecationMessages :=
  ⟨by decide, rfl, rfl, rfl, rfl⟩

/-- C7 (amended): deprecation notices are de-duplicated by the joined string
    key original|replacement|message (absent components printed as
    "undefined"), not by the triple itself: an event whose key was already
    seen writes nothing and leaves the state unchanged, an event with a
    fresh key always renders and records its key, and recorded keys are
    never dropped — so each distinct key is rendered exactly once, while
    distinct triples are rendered separately exactly when their joined keys
    differ. -/
theorem deprecated_dedup (st : RunnerState) (m : DeprecationMessage) :
    (deprecKey m ∈ st.deprecationMessages → Runner.deprecated st m = (st, [])) ∧
    (deprecKey m ∉ st.deprecationMessages →
      (Runner.deprecated st m).2 ≠ [] ∧
      (Runner.deprecated st m).1.deprecationMessages =
        deprecKey m :: st.deprecationMessages) ∧
    (∀ k, k ∈ st.deprecationMessages →
      k ∈ (Runner.deprecated st m).1.deprecationMessages) := by
  refine ⟨fun hmem => ?_, fun hmem => ?_, fun k hk => ?_⟩
  · rw [Runner.deprecated, if_pos (List.elem_iff.2 hmem)]
  · rw [Runner.deprecated]
    rw [if_neg (fun hcon => hmem (List.elem_iff.1 hcon))]
    exact ⟨by simp, rfl⟩
  · rw [Runner.deprecated]
    split
    · exact hk
    · exact List.mem_cons_of_mem _ hk

theorem deprecated_dedup_w :
    deprecKey c7w ∉ (initRunner false false false).deprecationMessages ∧
    ((Runner.deprecated (initRunner false false false) c7w).2 ≠ [] ∧
     (Runner.deprecated (initRunner false false false) c7w).1.deprecationMessages =
       deprecKey c7w :: (initRunner false false false).deprecationMessages) :=
  ⟨by decide, (deprecated_dedup (initRunner false false false) c7w).2.1 (by decide)⟩

/-- Shape of the TOTAL block: its only `write` of content is the formatted
    summary line, which always starts with "TOTAL: tested " and ends with
    "; fatal error occurred" whenever the run has errors and no failed
    test. -/
theorem specTotalTail_shape (env tests failed skipped : Nat) (hasErrs : Bool) :
    ∃ s, specTotalTail env tests failed skipped hasErrs =
        [Out.display "bright",
         Out.foreground (if 0 < failed || hasErrs then "red" else "green"),
         Out.write s, Out.display "reset", Out.write "\n"] ∧
      (∃ r, s = "TOTAL: tested " ++ r) ∧
      (hasErrs = true → failed = 0 → ∃ p, s = p ++ "; fatal error occurred") := by
  have hmsg : (if hasErrs && failed == 0 then
        (if skipped ≠ 0 then
          "TOTAL: tested %d platforms, %d/%d tests failed" ++ " (" ++ toString skipped ++ " skipped)"
        else "TOTAL: tested %d platforms, %d/%d tests failed") ++ "; fatal error occurred"
      else
        (if skipped ≠ 0 then
          "TOTAL: tested %d platforms, %d/%d tests failed" ++ " (" ++ toString skipped ++ " skipped)"
        else "TOTAL: tested %d platforms, %d/%d tests failed")) =
      "TOTAL: tested %d platforms, %d/%d tests failed" ++
        ((if skipped ≠ 0 then " (" ++ toString skipped ++ " skipped)" else "") ++
         (if hasErrs && failed == 0 then "; fatal error occurred" else "")) := by
    split_ifs <;>
      simp only [String.append_assoc, String.append_empty, String.empty_append]
  refine ⟨nodeFormat ("TOTAL: tested %d platforms, %d/%d tests failed" ++
      ((if skipped ≠ 0 then " (" ++ toString skipped ++ " skipped)" else "") ++
       (if hasErrs && failed == 0 then "; fatal error occurred" else "")))
      [FmtArg.num env, FmtArg.num failed, FmtArg.num tests], ?_, ?_, ?_⟩
  · rw [← hmsg]
    rfl
  · rw [nodeFormat_total]
    exact ⟨toString env ++ (" platforms, " ++ (toString failed ++ ("/" ++ (toString tests ++
        (" tests failed" ++
          ((if skipped ≠ 0 then " (" ++ toString skipped ++ " skipped)" else "") ++
           (if (hasErrs && failed == 0) = true then "; fatal error occurred" else ""))))))),
      by simp only [String.append_assoc]⟩
  · intro hE hF
    rw [nodeFormat_total]
    simp only [hE, hF]
    exact ⟨"TOTAL: tested " ++ toString env ++ " platforms, " ++ toString 0 ++ "/" ++
        toString tests ++ " tests failed" ++
        (if skipped ≠ 0 then " (" ++ toString skipped ++ " skipped)" else ""),
      by simp only [← String.append_assoc]; rfl⟩

/-- C8: whenever the TOTAL summary is emitted, the failure color is applied
    exactly when the aggregate `numFailedTests` is positive or `hasErrors`
    is set (success color otherwise), and with zero failed tests but
    `hasErrors` set the summary string ends in "; fatal error occurred". -/
theorem runEnd_verdict (st : RunnerState) (h : 1 < st.sessions.length) :
    ∃ pre s,
      Runner.runEnd st = pre ++
        [Out.foreground
           (if 0 < sumNumFailedTests st.sessions || st.hasErrors then "red" else "green"),
         Out.write s, Out.display "reset", Out.write "\n"] ∧
      (st.hasErrors = true → sumNumFailedTests st.sessions = 0 →
        ∃ p, s = p ++ "; fatal error occurred") := by
  obtain ⟨s, hs, _, hsuf⟩ := specTotalTail_shape st.sessions.length (sumNumTests st.sessions)
    (sumNumFailedTests st.sessions) (sumNumSkippedTests st.sessions) st.hasErrors
  refine ⟨(if 0 < (combinedCoverage st).files.length then
      [Out.write "\n", Out.display "bright", Out.write "Total coverage\n",
       Out.display "reset", Out.coverageReport (combinedCoverage st)]
    else []) ++ [Out.display "bright"], s, ?_, hsuf⟩
  rw [runEnd_eq st h, hs]
  simp [List.append_assoc]

theorem runEnd_verdict_w :
    1 < c8St.sessions.length ∧
    Runner.runEnd c8St =
      [Out.display "bright", Out.foreground "red",
       Out.write "TOTAL: tested 2 platforms, 0/5 tests failed; fatal error occurred",
       Out.display "reset", Out.write "\n"] ∧
    ∃ pre s,
      Runner.runEnd c8St = pre ++
        [Out.foreground
           (if 0 < sumNumFailedTests c8St.sessions || c8St.hasErrors then "red" else "green"),
         Out.write s, Out.display "reset", Out.write "\n"] ∧
      (c8St.hasErrors = true → sumNumFailedTests c8St.sessions = 0 →
        ∃ p, s = p ++ "; fatal error occurred") :=
  ⟨by decide, rfl, runEnd_verdict c8St (by decide)⟩

/-- C4 counterexample: with two registered sessions and no coverage data,
    `runEnd` writes the TOTAL summary but no combined coverage report,
    refuting the claim that the combined coverage report is written whenever
    strictly more than one session is registered. -/
theorem runEnd_no_coverage_report_cex :
    1 < c4St.sessions.length ∧
    Runner.runEnd c4St =
      [Out.display "bright", Out.foreground "red",
       Out.write "TOTAL: tested 2 platforms, 1/3 tests failed",
       Out.display "reset", Out.write "\n"] ∧
    hasCoverageReport (Runner.runEnd c4St) = false :=
  ⟨by decide, rfl, rfl⟩

/-- C4 (amended): `runEnd` writes nothing at all when at most one session is
    registered; with more than one it always writes the TOTAL summary line;
    and it emits the combined coverage report exactly when more than one
    session is registered and the merged coverage map is non-empty. -/
theorem runEnd_emission (st : RunnerState) :
    (st.sessions.length ≤ 1 → Runner.runEnd st = []) ∧
    (1 < st.sessions.length →
      ∃ s r, Out.write s ∈ Runner.runEnd st ∧ s = "TOTAL: tested " ++ r) ∧
    ((∃ m, Out.coverageReport m ∈ Runner.runEnd st) ↔
      (1 < st.sessions.length ∧ (combinedCoverage st).files ≠ [])) := by
  refine ⟨fun h1 => ?_, fun h => ?_, ⟨fun hmem => ?_, fun hcond => ?_⟩⟩
  · rw [Runner.runEnd]
    simp only [List.length_map]
    rw [if_neg (by omega)]
  · obtain ⟨s, hs, ⟨r, hr⟩, _⟩ := specTotalTail_shape st.sessions.length (sumNumTests st.sessions)
      (sumNumFailedTests st.sessions) (sumNumSkippedTests st.sessions) st.hasErrors
    refine ⟨s, r, ?_, hr⟩
    rw [runEnd_eq st h, hs]
    simp
  · obtain ⟨m, hm⟩ := hmem
    by_cases h : 1 < st.sessions.length
    · refine ⟨h, ?_⟩
      rw [runEnd_eq st h] at hm
      obtain ⟨s, hs, _, _⟩ := specTotalTail_shape st.sessions.length (sumNumTests st.sessions)
        (sumNumFailedTests st.sessions) (sumNumSkippedTests st.sessions) st.hasErrors
      rw [hs] at hm
      rcases List.mem_append.1 hm with hc | hc
      · by_cases hf : 0 < (combinedCoverage st).files.length
        · exact (List.length_pos.1 hf)
        · rw [if_neg hf] at hc
          simp at hc
      · simp at hc
    · have hnil : Runner.runEnd st = [] := by
        rw [Runner.runEnd]
        simp only [List.length_map]
        rw [if_neg h]
      rw [hnil] at hm
      simp at hm
  · obtain ⟨h, hf⟩ := hcond
    rw [runEnd_eq st h]
    refine ⟨combinedCoverage st, ?_⟩
    rw [if_pos (List.length_pos.2 hf)]
    simp

theorem runEnd_emission_w :
    c4wSt.sessions.length ≤ 1 ∧ Runner.runEnd c4wSt = [] :=
  ⟨by decide, (runEnd_emission c4wSt).1 (by decide)⟩

end Intern
